import Mathlib

/-!
# Verification of the HR-Management-System guarded SQL pipeline

Shallow embedding of `src/backend/agents/sql/sql_agent.py`,
`src/backend/agents/main_agent.py` (fusion source attribution) and the
result shapes of `src/backend/agents/policy/policy_agent.py`.

Python strings are modelled as Lean `String`; Python's `in`, `startswith`,
`lower`, `upper`, `strip`, `rstrip`, `split` and `replace` are given
faithful executable counterparts below.  The generative-model call
`self.llm._call(prompt)` is modelled by a parameter of type
`Except String String`: `Except.ok raw` is the model's returned text,
`Except.error e` is a raised exception with message `str(e) = e`.  The
SQLite store behind `execute_sql` is modelled by an abstract state type
together with the two ways the code touches it (`pd.read_sql` for SELECT
and `cursor.execute` for mutations), each of which may raise a classified
error.
-/

namespace HRMS

/-- Python `needle in hay` (substring containment). -/
def pyIn (needle hay : String) : Prop := needle.data <:+: hay.data

instance (n h : String) : Decidable (pyIn n h) := List.decidableInfix n.data h.data

/-- Python `s.startswith(pre)`. -/
def pyStartsWith (s pre : String) : Prop := pre.data <+: s.data

instance (s pre : String) : Decidable (pyStartsWith s pre) :=
  inferInstanceAs (Decidable (pre.data <+: s.data))

/-- Python `s.lower()` (ASCII case mapping suffices for this code base). -/
def pyLower (s : String) : String := ⟨s.data.map Char.toLower⟩

/-- Python `s.upper()`. -/
def pyUpper (s : String) : String := ⟨s.data.map Char.toUpper⟩

/-- Python `s.strip()`: drop whitespace from both ends. -/
def pyStrip (s : String) : String :=
  ⟨((s.data.dropWhile Char.isWhitespace).reverse.dropWhile Char.isWhitespace).reverse⟩

/-- Python `s.rstrip(";")`: drop trailing semicolons. -/
def pyRstripSemi (s : String) : String :=
  ⟨(s.data.reverse.dropWhile (· == ';')).reverse⟩

/-- Fuel-driven worker for `pySplit`: scan left to right, splitting at each
non-overlapping occurrence of `sep`.  The fuel (initialised to the input
length, which bounds the recursion depth) keeps the recursion structural. -/
def splitOnCore (sep : List Char) : Nat → List Char → List Char → List (List Char)
  | _, [], acc => [acc.reverse]
  | 0, l, acc => [acc.reverse ++ l]
  | fuel + 1, c :: rest, acc =>
    if sep.isPrefixOf (c :: rest) then
      acc.reverse :: splitOnCore sep fuel (List.drop (sep.length - 1) rest) []
    else splitOnCore sep fuel rest (c :: acc)

/-- Python `s.split(sep)` for a non-empty separator: non-overlapping,
left-to-right, separators dropped, empty pieces kept. -/
def pySplit (s sep : String) : List String :=
  if sep.data = [] then [s]
  else (splitOnCore sep.data s.data.length s.data []).map fun l => (⟨l⟩ : String)

/-- Fuel-driven worker for `pyReplace`. -/
def replaceCore (pat rep : List Char) : Nat → List Char → List Char
  | _, [] => []
  | 0, l => l
  | fuel + 1, c :: rest =>
    if pat.isPrefixOf (c :: rest) then
      rep ++ replaceCore pat rep fuel (List.drop (pat.length - 1) rest)
    else c :: replaceCore pat rep fuel rest

/-- Python `s.replace(pat, rep)` for a non-empty pattern: replaces every
non-overlapping occurrence, scanning left to right. -/
def pyReplace (s pat rep : String) : String :=
  if pat.data = [] then s
  else ⟨replaceCore pat.data rep.data s.data.length s.data⟩

/-- One line of `_clean_sql`'s scan: `line.upper().startswith(('SELECT', 'UPDATE',
'INSERT', 'DELETE'))`. -/
def startsWithSqlKeyword (line : String) : Bool :=
  decide (pyStartsWith (pyUpper line) "SELECT") ||
  decide (pyStartsWith (pyUpper line) "UPDATE") ||
  decide (pyStartsWith (pyUpper line) "INSERT") ||
  decide (pyStartsWith (pyUpper line) "DELETE")

/-- `SQLAgent._clean_sql` (sql_agent.py:291-308): strip code fences, keep the
first line that starts with a statement keyword, drop trailing semicolons and
surrounding whitespace. -/
def clean_sql (sql : String) : String :=
  let sql1 :=
    if pyIn "```sql" sql then
      pyStrip (((pySplit ((pySplit sql "```sql").getD 1 "") "```").getD 0 ""))
    else if pyIn "```" sql then
      pyStrip (((pySplit ((pySplit sql "```").getD 1 "") "```").getD 0 ""))
    else sql
  let sql2 :=
    match ((pySplit sql1 "\n").map pyStrip).find? startsWithSqlKeyword with
    | some line => line
    | none => sql1
  pyStrip (pyRstripSemi sql2)

/-- `classify_sql_intent`'s UPDATE trigger list (sql_agent.py:48). -/
def update_keywords : List String := ["change", "update", "modify", "edit", "set", "alter"]

/-- `classify_sql_intent`'s INSERT trigger list (sql_agent.py:52). -/
def insert_keywords : List String := ["add", "create", "insert", "new employee", "hire"]

/-- `classify_sql_intent`'s DELETE trigger list (sql_agent.py:56). -/
def delete_keywords : List String := ["delete", "remove", "fire", "terminate"]

/-- `SQLAgent.classify_sql_intent` (sql_agent.py:40-60). -/
def classify_sql_intent (nl_query user_role : String) : String :=
  let query_lower := pyLower nl_query
  if user_role ≠ "hr" then "SELECT"
  else if update_keywords.any (fun k => decide (pyIn k query_lower)) then "UPDATE"
  else if insert_keywords.any (fun k => decide (pyIn k query_lower)) then "INSERT"
  else if delete_keywords.any (fun k => decide (pyIn k query_lower)) then "DELETE"
  else "SELECT"

/-- `SQLAgent.generate_update_sql` (sql_agent.py:78-127).  The schema text and
prompt only feed the model call, which is abstracted into `llmResult`. -/
def generate_update_sql (llmResult : Except String String) : String :=
  match llmResult with
  | Except.error e => "REJECTED_SQL: Generation error: " ++ e
  | Except.ok raw_response =>
    let sql := clean_sql raw_response
    if ¬ pyStartsWith (pyUpper sql) "UPDATE" then
      "REJECTED_SQL: Must be UPDATE statement -> " ++ sql
    else if ¬ pyIn "WHERE" (pyUpper sql) then
      "REJECTED_SQL: UPDATE must have WHERE clause for safety -> " ++ sql
    else sql

/-- `SQLAgent.generate_insert_sql` (sql_agent.py:129-173): keyword check only,
no WHERE requirement. -/
def generate_insert_sql (llmResult : Except String String) : String :=
  match llmResult with
  | Except.error e => "REJECTED_SQL: Generation error: " ++ e
  | Except.ok raw_response =>
    let sql := clean_sql raw_response
    if ¬ pyStartsWith (pyUpper sql) "INSERT" then
      "REJECTED_SQL: Must be INSERT statement -> " ++ sql
    else sql

/-- `SQLAgent.generate_delete_sql` (sql_agent.py:175-217). -/
def generate_delete_sql (llmResult : Except String String) : String :=
  match llmResult with
  | Except.error e => "REJECTED_SQL: Generation error: " ++ e
  | Except.ok raw_response =>
    let sql := clean_sql raw_response
    if ¬ pyStartsWith (pyUpper sql) "DELETE" then
      "REJECTED_SQL: Must be DELETE statement -> " ++ sql
    else if ¬ pyIn "WHERE" (pyUpper sql) then
      "REJECTED_SQL: DELETE must have WHERE clause for safety -> " ++ sql
    else sql

/-- `SQLAgent._ensure_user_filter` (sql_agent.py:310-321).  `id_col` is the
result of `get_employee_id_column()` (db_setup.py:69-89), which depends only on
the database schema and is `"EmployeeNumber"` for the shipped data set; it is
kept as a parameter. -/
def ensure_user_filter (id_col sql user_id : String) : String :=
  let sql_lower := pyLower sql
  if ¬ pyIn "where" sql_lower then
    sql ++ " WHERE " ++ id_col ++ " = '" ++ user_id ++ "'"
  else if ¬ pyIn (pyLower id_col) sql_lower ∨ ¬ pyIn user_id sql then
    sql ++ " AND " ++ id_col ++ " = '" ++ user_id ++ "'"
  else sql

/-- `SQLAgent.generate_select_sql` (sql_agent.py:219-289).  `user_id = none`
models Python `user_id=None`. -/
def generate_select_sql (id_col : String) (llmResult : Except String String)
    (user_id : Option String) : String :=
  match llmResult with
  | Except.error e => "REJECTED_SQL: Generation error: " ++ e
  | Except.ok raw_response =>
    let sql := clean_sql raw_response
    if ¬ pyStartsWith (pyUpper sql) "SELECT" then
      "REJECTED_SQL: Must be SELECT statement -> " ++ sql
    else
      match user_id with
      | some uid => ensure_user_filter id_col sql uid
      | none => sql

/-- `SQLAgent.generate_sql` (sql_agent.py:62-76).  In Python `user_role`
defaults to `"employee"`. -/
def generate_sql (id_col nl_query : String) (llmResult : Except String String)
    (user_id : Option String) (user_role : String) : String :=
  let intent := classify_sql_intent nl_query user_role
  if intent = "UPDATE" then generate_update_sql llmResult
  else if intent = "INSERT" then generate_insert_sql llmResult
  else if intent = "DELETE" then generate_delete_sql llmResult
  else generate_select_sql id_col llmResult user_id

/-- `MainAgent.execute_fusion_query` (main_agent.py:81-83) calls
`self.sql_agent.generate_sql(question, self.current_user_id)` with no role
argument, so `user_role` takes its Python default `"employee"`. -/
def fusion_generate_sql (id_col question : String) (llmResult : Except String String)
    (current_user_id : Option String) : String :=
  generate_sql id_col question llmResult current_user_id "employee"

/-! ## Execution engine (`SQLAgent.execute_sql`, sql_agent.py:323-408) -/

/-- A cell value in a result record.  Python floats are modelled as rationals;
`round(value, 2)` is modelled by rational rounding to two decimal places
(the claims never depend on the exact tie-breaking of float rounding). -/
inductive Value where
  | vInt (n : Int)
  | vFloat (q : Rat)
  | vText (s : String)
  | vNull
deriving DecidableEq

/-- One record of a SELECT result: column name to value. -/
abbrev Row := List (String × Value)

/-- `round(value, 2)` on a float cell. -/
def round2 (q : Rat) : Rat := (round (q * 100) : Int) / 100

/-- The per-record float normalisation loop (sql_agent.py:350-353). -/
def normalizeRecord (r : Row) : Row :=
  r.map fun kv =>
    match kv.2 with
    | Value.vFloat q => (kv.1, Value.vFloat (round2 q))
    | v => (kv.1, v)

/-- The classified exceptions of the store boundary (sql_agent.py:390-408):
`sqlite3.IntegrityError`, `sqlite3.OperationalError`, anything else. -/
inductive SqlError where
  | integrityError (msg : String)
  | operationalError (msg : String)
  | otherError (msg : String)
deriving DecidableEq

/-- The result dictionaries `execute_sql` can return.  `errorResult` covers
every dict built around an `"error"` key (no `"success"` key);
`selectResult` and `mutationResult` carry `"success": True`. -/
inductive SQLResult where
  | errorResult (error : String) (sql : Option String) (suggestion : Option String)
  | selectResult (message : Option String) (sql : String) (data : List Row)
      (count : Nat) (columns : Option (List String))
  | mutationResult (message : String) (sql : String) (rows_affected : Nat)
      (operation : String)
deriving DecidableEq

/-- Python `"success" in result`: the success dicts carry the key, the error
dicts do not (sql_agent.py:326-408). -/
def SQLResult.hasSuccessKey : SQLResult → Bool
  | SQLResult.errorResult .. => false
  | _ => true

/-- The `except` clauses of `execute_sql` (sql_agent.py:390-408). -/
def sqlErrorResult (e : SqlError) (sql : String) : SQLResult :=
  match e with
  | SqlError.integrityError m =>
      SQLResult.errorResult ("Database constraint violation: " ++ m) (some sql)
        (some "Check if employee ID already exists or required fields are missing")
  | SqlError.operationalError m =>
      SQLResult.errorResult ("Database error: " ++ m) (some sql)
        (some "Please check column names and table structure")
  | SqlError.otherError m =>
      SQLResult.errorResult ("Execution error: " ++ m) (some sql) none

/-- Python `sql.split()[0]`: the first whitespace-delimited word. -/
def firstWord (s : String) : String :=
  ⟨(s.data.dropWhile Char.isWhitespace).takeWhile (fun c => ¬ c.isWhitespace)⟩

/-- `SQLAgent.execute_sql` (sql_agent.py:323-408).  The SQLite store is an
abstract state `σ`; `runSelect` models `pd.read_sql` (returning the data
frame as a list of records) and `runMutate` models `cursor.execute` plus
`conn.commit()` (returning the new store state and `cursor.rowcount`); either
may raise a classified `SqlError`.  The returned pair is (result dict, store
state after the call). -/
def execute_sql {σ : Type}
    (runSelect : σ → String → Except SqlError (List Row))
    (runMutate : σ → String → Except SqlError (σ × Nat))
    (store : σ) (sql : String) (user_role : String) : SQLResult × σ :=
  if pyStartsWith sql "REJECTED_SQL" then
    (SQLResult.errorResult (pyReplace sql "REJECTED_SQL: " "") none none, store)
  else
    let sql_upper := pyUpper sql
    if pyStartsWith sql_upper "SELECT" then
      match runSelect store sql with
      | Except.ok df =>
        if df.isEmpty then
          (SQLResult.selectResult (some "No results found") sql [] 0 none, store)
        else
          (SQLResult.selectResult none sql (df.map normalizeRecord) df.length
            (some ((df.headD []).map Prod.fst)), store)
      | Except.error e => (sqlErrorResult e sql, store)
    else if pyStartsWith sql_upper "UPDATE" ∨ pyStartsWith sql_upper "INSERT"
        ∨ pyStartsWith sql_upper "DELETE" then
      if user_role ≠ "hr" then
        (SQLResult.errorResult "Permission denied. Only HR can modify employee data."
          (some sql) none, store)
      else
        match runMutate store sql with
        | Except.ok (store2, rows_affected) =>
          let operation := pyUpper (firstWord sql)
          (SQLResult.mutationResult
            ("✅ " ++ operation ++ " successful! " ++ toString rows_affected
              ++ " row(s) affected.") sql rows_affected operation, store2)
        | Except.error e => (sqlErrorResult e sql, store)
    else
      (SQLResult.errorResult "Unsupported SQL operation" none none, store)

/-! ## Fusion source attribution (`MainAgent.execute_fusion_query`,
main_agent.py:76-116) and the result shape of `PolicyAgent.query`
(policy_agent.py:278-332). -/

/-- The dictionaries `PolicyAgent.query` returns when called with its default
`return_raw=False`, as in `execute_fusion_query` (main_agent.py:85): the two
error paths return `{"error": ..., "answer": ...}` and the success path
returns `{"success": True, "answer": bullets}`.  No branch produces a
`"source_documents"` key. -/
inductive PolicyQueryResult where
  | err (error : String) (answer : String)
  | ok (answer : String)
deriving DecidableEq

/-- Dictionary key membership for `PolicyQueryResult` (`result.get(k)` is
truthy only for keys that are present, and `"source_documents"` is present in
no branch of `PolicyAgent.query`). -/
def PolicyQueryResult.hasKey : PolicyQueryResult → String → Bool
  | PolicyQueryResult.err _ _, k => k == "error" || k == "answer"
  | PolicyQueryResult.ok _, k => k == "success" || k == "answer"

/-- The source-attribution block of `MainAgent.execute_fusion_query`
(main_agent.py:108-113): `sources.append("📊 Employee Database")` when
`"success" in sql_result`, and `sources.append("📋 Company Policy Documents")`
when `policy_result.get("source_documents")` is truthy — which requires the
key to be present. -/
def fusion_sources (sql_result : SQLResult) (policy_result : PolicyQueryResult) :
    List String :=
  (if sql_result.hasSuccessKey then ["📊 Employee Database"] else []) ++
  (if policy_result.hasKey "source_documents" then ["📋 Company Policy Documents"] else [])

/-! ## Helper lemmas about the Python string primitives -/

theorem pyIn_append_left {n s : String} (t : String) (h : pyIn n s) : pyIn n (s ++ t) := by
  refine h.trans ?_
  rw [String.data_append]
  exact ⟨[], t.data, by simp⟩

theorem pyIn_append_right {n t : String} (s : String) (h : pyIn n t) : pyIn n (s ++ t) := by
  refine h.trans ?_
  rw [String.data_append]
  exact ⟨s.data, [], by simp⟩

theorem pyLower_append (s t : String) : pyLower (s ++ t) = pyLower s ++ pyLower t := by
  apply String.ext
  simp [pyLower]

theorem pyUpper_append (s t : String) : pyUpper (s ++ t) = pyUpper s ++ pyUpper t := by
  apply String.ext
  simp [pyUpper]

theorem pyStartsWith_append {s : String} (t : String) {pre : String}
    (h : pyStartsWith s pre) : pyStartsWith (s ++ t) pre := by
  refine h.trans ?_
  rw [String.data_append]
  exact ⟨t.data, rfl⟩

/-- A string starting with a cons-shaped prefix has that head character. -/
theorem data_head_of_pyStartsWith {s pre : String} {c : Char} {cs : List Char}
    (hpre : pre.data = c :: cs) (h : pyStartsWith s pre) : ∃ l, s.data = c :: l := by
  obtain ⟨t, ht⟩ := h
  exact ⟨cs ++ t, by rw [← ht, hpre]; simp⟩

/-- If `pyUpper s` has head `c`, then `s` has a head that uppercases to `c`. -/
theorem exists_head_toUpper {s : String} {c : Char} {l : List Char}
    (h : (pyUpper s).data = c :: l) : ∃ d ds, s.data = d :: ds ∧ d.toUpper = c := by
  have hd : (pyUpper s).data = s.data.map Char.toUpper := rfl
  cases hs : s.data with
  | nil => rw [hd, hs] at h; simp at h
  | cons d ds =>
    rw [hd, hs] at h
    simp only [List.map_cons, List.cons.injEq] at h
    exact ⟨d, ds, rfl, h.1⟩

theorem pyIn_refl (s : String) : pyIn s s := ⟨[], [], by simp⟩

/-- Regroup a left-associated six-part append around its first part. -/
theorem append_regroup6 (a b c d e f : String) :
    a ++ b ++ c ++ d ++ e ++ f = a ++ (b ++ c ++ d ++ e ++ f) := by
  apply String.ext
  simp [List.append_assoc]

/-- The appended `WHERE` filter tail contains the lowercase `where` token, the
lowercase identity column and the raw caller identifier. -/
theorem whereTail_facts (id_col user_id : String) :
    pyIn "where" (pyLower (" WHERE " ++ id_col ++ " = '" ++ user_id ++ "'")) ∧
    pyIn (pyLower id_col) (pyLower (" WHERE " ++ id_col ++ " = '" ++ user_id ++ "'")) ∧
    pyIn user_id (" WHERE " ++ id_col ++ " = '" ++ user_id ++ "'") := by
  refine ⟨?_, ?_, ?_⟩
  · simp only [pyLower_append]
    exact pyIn_append_left _ (pyIn_append_left _ (pyIn_append_left _
      (pyIn_append_left _ (by decide))))
  · simp only [pyLower_append]
    exact pyIn_append_left _ (pyIn_append_left _ (pyIn_append_left _
      (pyIn_append_right _ (pyIn_refl _))))
  · exact pyIn_append_left _ (pyIn_append_right _ (pyIn_refl _))

/-- The appended `AND` filter tail likewise contains the lowercase identity
column and the raw caller identifier. -/
theorem andTail_facts (id_col user_id : String) :
    pyIn (pyLower id_col) (pyLower (" AND " ++ id_col ++ " = '" ++ user_id ++ "'")) ∧
    pyIn user_id (" AND " ++ id_col ++ " = '" ++ user_id ++ "'") := by
  refine ⟨?_, ?_⟩
  · simp only [pyLower_append]
    exact pyIn_append_left _ (pyIn_append_left _ (pyIn_append_left _
      (pyIn_append_right _ (pyIn_refl _))))
  · exact pyIn_append_left _ (pyIn_append_right _ (pyIn_refl _))

/-- `_ensure_user_filter` only ever appends to its input. -/
theorem ensure_user_filter_append (id_col sql user_id : String) :
    ∃ t, ensure_user_filter id_col sql user_id = sql ++ t := by
  simp only [ensure_user_filter]
  by_cases h1 : pyIn "where" (pyLower sql)
  · rw [if_neg (not_not_intro h1)]
    by_cases h2 : ¬ pyIn (pyLower id_col) (pyLower sql) ∨ ¬ pyIn user_id sql
    · rw [if_pos h2]
      exact ⟨" AND " ++ id_col ++ " = '" ++ user_id ++ "'", append_regroup6 ..⟩
    · rw [if_neg h2]
      exact ⟨"", by simp⟩
  · rw [if_pos h1]
    exact ⟨" WHERE " ++ id_col ++ " = '" ++ user_id ++ "'", append_regroup6 ..⟩

/-- A statement that is a REJECTED sentinel or a SELECT never moves the store
state through `execute_sql`. -/
theorem execute_snd_eq_of_read (σ : Type)
    (runSelect : σ → String → Except SqlError (List Row))
    (runMutate : σ → String → Except SqlError (σ × Nat))
    (store : σ) (sql user_role : String)
    (h : pyStartsWith sql "REJECTED_SQL" ∨ pyStartsWith (pyUpper sql) "SELECT") :
    (execute_sql runSelect runMutate store sql user_role).2 = store := by
  by_cases h1 : pyStartsWith sql "REJECTED_SQL"
  · simp only [execute_sql]
    rw [if_pos h1]
  · have h2 : pyStartsWith (pyUpper sql) "SELECT" := h.resolve_left h1
    simp only [execute_sql]
    rw [if_neg h1, if_pos h2]
    cases hrs : runSelect store sql with
    | ok df => cases df <;> rfl
    | error e => rfl

/-- One application of `_ensure_user_filter` always leaves both the caller
identifier (verbatim) and the lowercase identity column present. -/
theorem ensure_user_filter_contains (id_col sql user_id : String) :
    pyIn user_id (ensure_user_filter id_col sql user_id) ∧
    pyIn (pyLower id_col) (pyLower (ensure_user_filter id_col sql user_id)) := by
  simp only [ensure_user_filter]
  by_cases h1 : pyIn "where" (pyLower sql)
  · by_cases h2 : ¬ pyIn (pyLower id_col) (pyLower sql) ∨ ¬ pyIn user_id sql
    · rw [if_neg (not_not_intro h1), if_pos h2]
      constructor
      · rw [append_regroup6]
        exact pyIn_append_right _ (andTail_facts id_col user_id).2
      · rw [append_regroup6, pyLower_append]
        exact pyIn_append_right _ (andTail_facts id_col user_id).1
    · rw [if_neg (not_not_intro h1), if_neg h2]
      push_neg at h2
      exact ⟨h2.2, h2.1⟩
  · rw [if_pos h1]
    constructor
    · rw [append_regroup6]
      exact pyIn_append_right _ (whereTail_facts id_col user_id).2.2
    · rw [append_regroup6, pyLower_append]
      exact pyIn_append_right _ (whereTail_facts id_col user_id).2.1

/-! ## Claim theorems -/

/-- C1: for every natural-language query text, a caller whose role is not
`"hr"` is classified as a `SELECT` (READ) operation, never `UPDATE`, `INSERT`
or `DELETE`, regardless of mutating lexical cues in the text
(`classify_sql_intent`, sql_agent.py:40-60). -/
theorem C1_non_hr_always_select (nl_query user_role : String) (h : user_role ≠ "hr") :
    classify_sql_intent nl_query user_role = "SELECT" ∧
    classify_sql_intent nl_query user_role ≠ "UPDATE" ∧
    classify_sql_intent nl_query user_role ≠ "INSERT" ∧
    classify_sql_intent nl_query user_role ≠ "DELETE" := by
  have hsel : classify_sql_intent nl_query user_role = "SELECT" := by
    simp only [classify_sql_intent]
    rw [if_pos h]
  refine ⟨hsel, ?_, ?_, ?_⟩ <;> rw [hsel] <;> decide

/-- Witness for C1: an employee query loaded with mutating cues. -/
theorem C1_witness :
    ("employee" : String) ≠ "hr" ∧
    (classify_sql_intent "update the salary and delete employee E002" "employee" = "SELECT" ∧
     classify_sql_intent "update the salary and delete employee E002" "employee" ≠ "UPDATE" ∧
     classify_sql_intent "update the salary and delete employee E002" "employee" ≠ "INSERT" ∧
     classify_sql_intent "update the salary and delete employee E002" "employee" ≠ "DELETE") :=
  ⟨by decide, C1_non_hr_always_select "update the salary and delete employee E002" "employee"
    (by decide)⟩

/-- C6: if the model call raises during synthesis, each of the four generators
returns the REJECTED sentinel carrying a generation-error reason instead of
raising (sql_agent.py:126-127, 172-173, 216-217, 288-289), and executing the
sentinel returns an error dict immediately, leaving the store untouched
(sql_agent.py:326-327). -/
theorem C6_generation_error_never_executes (σ : Type)
    (runSelect : σ → String → Except SqlError (List Row))
    (runMutate : σ → String → Except SqlError (σ × Nat))
    (store : σ) (user_role id_col : String) (uid : Option String) (e : String) :
    generate_update_sql (Except.error e) = "REJECTED_SQL: Generation error: " ++ e ∧
    generate_insert_sql (Except.error e) = "REJECTED_SQL: Generation error: " ++ e ∧
    generate_delete_sql (Except.error e) = "REJECTED_SQL: Generation error: " ++ e ∧
    generate_select_sql id_col (Except.error e) uid = "REJECTED_SQL: Generation error: " ++ e ∧
    execute_sql runSelect runMutate store ("REJECTED_SQL: Generation error: " ++ e) user_role
      = (SQLResult.errorResult
          (pyReplace ("REJECTED_SQL: Generation error: " ++ e) "REJECTED_SQL: " "")
          none none, store) := by
  refine ⟨rfl, rfl, rfl, rfl, ?_⟩
  have hrej : pyStartsWith ("REJECTED_SQL: Generation error: " ++ e) "REJECTED_SQL" :=
    pyStartsWith_append e (by decide)
  simp only [execute_sql]
  rw [if_pos hrej]

/-- C4: whenever the cleaned synthesizer output does not start with the
keyword of the classified operation kind, the generator returns the REJECTED
sentinel (sql_agent.py:117-118, 166-167, 207-208, 279-280), and executing
that sentinel returns an error dict immediately with the store untouched
(sql_agent.py:326-327). -/
theorem C4_keyword_mismatch_rejected (σ : Type)
    (runSelect : σ → String → Except SqlError (List Row))
    (runMutate : σ → String → Except SqlError (σ × Nat))
    (store : σ) (user_role id_col : String)
    (raw_u raw_i raw_d raw_s : String) (uid : Option String) :
    (¬ pyStartsWith (pyUpper (clean_sql raw_u)) "UPDATE" →
       generate_update_sql (Except.ok raw_u)
         = "REJECTED_SQL: Must be UPDATE statement -> " ++ clean_sql raw_u ∧
       execute_sql runSelect runMutate store (generate_update_sql (Except.ok raw_u)) user_role
         = (SQLResult.errorResult
             (pyReplace ("REJECTED_SQL: Must be UPDATE statement -> " ++ clean_sql raw_u)
               "REJECTED_SQL: " "") none none, store)) ∧
    (¬ pyStartsWith (pyUpper (clean_sql raw_i)) "INSERT" →
       generate_insert_sql (Except.ok raw_i)
         = "REJECTED_SQL: Must be INSERT statement -> " ++ clean_sql raw_i ∧
       execute_sql runSelect runMutate store (generate_insert_sql (Except.ok raw_i)) user_role
         = (SQLResult.errorResult
             (pyReplace ("REJECTED_SQL: Must be INSERT statement -> " ++ clean_sql raw_i)
               "REJECTED_SQL: " "") none none, store)) ∧
    (¬ pyStartsWith (pyUpper (clean_sql raw_d)) "DELETE" →
       generate_delete_sql (Except.ok raw_d)
         = "REJECTED_SQL: Must be DELETE statement -> " ++ clean_sql raw_d ∧
       execute_sql runSelect runMutate store (generate_delete_sql (Except.ok raw_d)) user_role
         = (SQLResult.errorResult
             (pyReplace ("REJECTED_SQL: Must be DELETE statement -> " ++ clean_sql raw_d)
               "REJECTED_SQL: " "") none none, store)) ∧
    (¬ pyStartsWith (pyUpper (clean_sql raw_s)) "SELECT" →
       generate_select_sql id_col (Except.ok raw_s) uid
         = "REJECTED_SQL: Must be SELECT statement -> " ++ clean_sql raw_s ∧
       execute_sql runSelect runMutate store (generate_select_sql id_col (Except.ok raw_s) uid)
           user_role
         = (SQLResult.errorResult
             (pyReplace ("REJECTED_SQL: Must be SELECT statement -> " ++ clean_sql raw_s)
               "REJECTED_SQL: " "") none none, store)) := by
  refine ⟨fun h => ?_, fun h => ?_, fun h => ?_, fun h => ?_⟩
  · have hgen : generate_update_sql (Except.ok raw_u)
        = "REJECTED_SQL: Must be UPDATE statement -> " ++ clean_sql raw_u := by
      simp only [generate_update_sql]
      rw [if_pos h]
    refine ⟨hgen, ?_⟩
    rw [hgen]
    simp only [execute_sql]
    rw [if_pos (pyStartsWith_append (clean_sql raw_u) (by decide))]
  · have hgen : generate_insert_sql (Except.ok raw_i)
        = "REJECTED_SQL: Must be INSERT statement -> " ++ clean_sql raw_i := by
      simp only [generate_insert_sql]
      rw [if_pos h]
    refine ⟨hgen, ?_⟩
    rw [hgen]
    simp only [execute_sql]
    rw [if_pos (pyStartsWith_append (clean_sql raw_i) (by decide))]
  · have hgen : generate_delete_sql (Except.ok raw_d)
        = "REJECTED_SQL: Must be DELETE statement -> " ++ clean_sql raw_d := by
      simp only [generate_delete_sql]
      rw [if_pos h]
    refine ⟨hgen, ?_⟩
    rw [hgen]
    simp only [execute_sql]
    rw [if_pos (pyStartsWith_append (clean_sql raw_d) (by decide))]
  · have hgen : generate_select_sql id_col (Except.ok raw_s) uid
        = "REJECTED_SQL: Must be SELECT statement -> " ++ clean_sql raw_s := by
      simp only [generate_select_sql]
      rw [if_pos h]
    refine ⟨hgen, ?_⟩
    rw [hgen]
    simp only [execute_sql]
    rw [if_pos (pyStartsWith_append (clean_sql raw_s) (by decide))]

/-- Witness for C4: a SELECT answer offered for each mutating intent and an
UPDATE answer offered for a SELECT intent, all rejected. -/
theorem C4_witness :
    (¬ pyStartsWith (pyUpper (clean_sql "SELECT 1")) "UPDATE") ∧
    (¬ pyStartsWith (pyUpper (clean_sql "SELECT 1")) "INSERT") ∧
    (¬ pyStartsWith (pyUpper (clean_sql "SELECT 1")) "DELETE") ∧
    (¬ pyStartsWith (pyUpper (clean_sql "UPDATE employees SET a = 'b' WHERE c = 'd'")) "SELECT") ∧
    generate_update_sql (Except.ok "SELECT 1")
      = "REJECTED_SQL: Must be UPDATE statement -> " ++ clean_sql "SELECT 1" ∧
    generate_insert_sql (Except.ok "SELECT 1")
      = "REJECTED_SQL: Must be INSERT statement -> " ++ clean_sql "SELECT 1" ∧
    generate_delete_sql (Except.ok "SELECT 1")
      = "REJECTED_SQL: Must be DELETE statement -> " ++ clean_sql "SELECT 1" ∧
    generate_select_sql "EmployeeNumber"
        (Except.ok "UPDATE employees SET a = 'b' WHERE c = 'd'") (some "E001")
      = "REJECTED_SQL: Must be SELECT statement -> "
          ++ clean_sql "UPDATE employees SET a = 'b' WHERE c = 'd'" ∧
    execute_sql (fun (_ : Nat) _ => Except.ok []) (fun s _ => Except.ok (s, 1)) 0
        (generate_update_sql (Except.ok "SELECT 1")) "hr"
      = (SQLResult.errorResult
          (pyReplace ("REJECTED_SQL: Must be UPDATE statement -> " ++ clean_sql "SELECT 1")
            "REJECTED_SQL: " "") none none, 0) := by
  have h := C4_keyword_mismatch_rejected Nat (fun _ _ => Except.ok [])
    (fun s _ => Except.ok (s, 1)) 0 "hr" "EmployeeNumber"
    "SELECT 1" "SELECT 1" "SELECT 1" "UPDATE employees SET a = 'b' WHERE c = 'd'" (some "E001")
  exact ⟨by decide, by decide, by decide, by decide,
    (h.1 (by decide)).1, (h.2.1 (by decide)).1, (h.2.2.1 (by decide)).1,
    (h.2.2.2 (by decide)).1, (h.1 (by decide)).2⟩

/-- C5: a statement whose leading keyword is UPDATE, INSERT or DELETE is never
applied for a caller whose role is not `"hr"`: `execute_sql` returns the
permission-denied error dict and the store state is unchanged
(sql_agent.py:363-369). -/
theorem C5_mutation_requires_hr_at_execution (σ : Type)
    (runSelect : σ → String → Except SqlError (List Row))
    (runMutate : σ → String → Except SqlError (σ × Nat))
    (store : σ) (sql user_role : String)
    (hmut : pyStartsWith (pyUpper sql) "UPDATE" ∨ pyStartsWith (pyUpper sql) "INSERT"
        ∨ pyStartsWith (pyUpper sql) "DELETE")
    (hrole : user_role ≠ "hr") :
    execute_sql runSelect runMutate store sql user_role
      = (SQLResult.errorResult "Permission denied. Only HR can modify employee data."
          (some sql) none, store) := by
  have hU : ("UPDATE" : String).data = 'U' :: "PDATE".data := rfl
  have hI : ("INSERT" : String).data = 'I' :: "NSERT".data := rfl
  have hD : ("DELETE" : String).data = 'D' :: "ELETE".data := rfl
  have hR : ("REJECTED_SQL" : String).data = 'R' :: "EJECTED_SQL".data := rfl
  have hS : ("SELECT" : String).data = 'S' :: "ELECT".data := rfl
  have hhead : ∃ c l, (pyUpper sql).data = c :: l ∧ (c = 'U' ∨ c = 'I' ∨ c = 'D') := by
    rcases hmut with h | h | h
    · obtain ⟨l, hl⟩ := data_head_of_pyStartsWith hU h
      exact ⟨'U', l, hl, Or.inl rfl⟩
    · obtain ⟨l, hl⟩ := data_head_of_pyStartsWith hI h
      exact ⟨'I', l, hl, Or.inr (Or.inl rfl)⟩
    · obtain ⟨l, hl⟩ := data_head_of_pyStartsWith hD h
      exact ⟨'D', l, hl, Or.inr (Or.inr rfl)⟩
  obtain ⟨c, l, hcl, hc⟩ := hhead
  obtain ⟨d, ds, hds, hdc⟩ := exists_head_toUpper hcl
  have hnotrej : ¬ pyStartsWith sql "REJECTED_SQL" := by
    intro hr
    obtain ⟨l', hl'⟩ := data_head_of_pyStartsWith hR hr
    rw [hds] at hl'
    injection hl' with h1 _
    have hcR : c = 'R' := by rw [← hdc, h1]; decide
    rcases hc with h | h | h <;> rw [hcR] at h <;> exact absurd h (by decide)
  have hnotsel : ¬ pyStartsWith (pyUpper sql) "SELECT" := by
    intro hs
    obtain ⟨l', hl'⟩ := data_head_of_pyStartsWith hS hs
    rw [hcl] at hl'
    injection hl' with h1 _
    rcases hc with h | h | h <;> rw [h] at h1 <;> exact absurd h1 (by decide)
  simp only [execute_sql]
  rw [if_neg hnotrej, if_neg hnotsel, if_pos hmut, if_pos hrole]

/-- Witness for C5: an employee attempting an UPDATE at execution time; the
mutator would bump the store state, but the state stays 0. -/
theorem C5_witness :
    (pyStartsWith (pyUpper "UPDATE employees SET MonthlyIncome = 0 WHERE EmployeeNumber = 'E001'")
        "UPDATE"
      ∨ pyStartsWith (pyUpper "UPDATE employees SET MonthlyIncome = 0 WHERE EmployeeNumber = 'E001'")
        "INSERT"
      ∨ pyStartsWith (pyUpper "UPDATE employees SET MonthlyIncome = 0 WHERE EmployeeNumber = 'E001'")
        "DELETE") ∧
    ("employee" : String) ≠ "hr" ∧
    execute_sql (fun (_ : Nat) _ => Except.ok []) (fun s _ => Except.ok (s + 1, 1)) 0
        "UPDATE employees SET MonthlyIncome = 0 WHERE EmployeeNumber = 'E001'" "employee"
      = (SQLResult.errorResult "Permission denied. Only HR can modify employee data."
          (some "UPDATE employees SET MonthlyIncome = 0 WHERE EmployeeNumber = 'E001'") none, 0) :=
  ⟨Or.inl (by decide), by decide,
    C5_mutation_requires_hr_at_execution Nat (fun _ _ => Except.ok [])
      (fun s _ => Except.ok (s + 1, 1)) 0
      "UPDATE employees SET MonthlyIncome = 0 WHERE EmployeeNumber = 'E001'" "employee"
      (Or.inl (by decide)) (by decide)⟩

/-- C8: an accepted SELECT whose execution returns an empty result set yields
the success dict `{"success": True, "message": "No results found", "data": [],
"count": 0}` — never an error — and the store is untouched
(sql_agent.py:335-346). -/
theorem C8_empty_select_is_success (σ : Type)
    (runSelect : σ → String → Except SqlError (List Row))
    (runMutate : σ → String → Except SqlError (σ × Nat))
    (store : σ) (sql user_role : String)
    (hsel : pyStartsWith (pyUpper sql) "SELECT")
    (hempty : runSelect store sql = Except.ok []) :
    execute_sql runSelect runMutate store sql user_role
      = (SQLResult.selectResult (some "No results found") sql [] 0 none, store) := by
  have hR : ("REJECTED_SQL" : String).data = 'R' :: "EJECTED_SQL".data := rfl
  have hS : ("SELECT" : String).data = 'S' :: "ELECT".data := rfl
  obtain ⟨l, hl⟩ := data_head_of_pyStartsWith hS hsel
  obtain ⟨d, ds, hds, hdc⟩ := exists_head_toUpper hl
  have hnotrej : ¬ pyStartsWith sql "REJECTED_SQL" := by
    intro hr
    obtain ⟨l', hl'⟩ := data_head_of_pyStartsWith hR hr
    rw [hds] at hl'
    injection hl' with h1 _
    rw [h1] at hdc
    exact absurd hdc (by decide)
  simp only [execute_sql]
  rw [if_neg hnotrej, if_pos hsel, hempty]
  rfl

/-- Witness for C8: an accepted SELECT over an empty department. -/
theorem C8_witness :
    pyStartsWith (pyUpper "SELECT Name FROM employees WHERE Department = 'Legal'") "SELECT" ∧
    ((fun (_ : Nat) (_ : String) => (Except.ok [] : Except SqlError (List Row))) 7
        "SELECT Name FROM employees WHERE Department = 'Legal'" = Except.ok []) ∧
    execute_sql (fun (_ : Nat) _ => Except.ok []) (fun s _ => Except.ok (s, 1)) 7
        "SELECT Name FROM employees WHERE Department = 'Legal'" "employee"
      = (SQLResult.selectResult (some "No results found")
          "SELECT Name FROM employees WHERE Department = 'Legal'" [] 0 none, 7) :=
  ⟨by decide, rfl,
    C8_empty_select_is_success Nat (fun _ _ => Except.ok []) (fun s _ => Except.ok (s, 1)) 7
      "SELECT Name FROM employees WHERE Department = 'Legal'" "employee" (by decide) rfl⟩

/-- C3: every UPDATE or DELETE that is not returned as a REJECTED sentinel
contains `WHERE` (sql_agent.py:120-121, 210-211); a synthesized UPDATE or
DELETE lacking `WHERE` is rejected with a reason citing the missing clause,
and executing the sentinel returns an error dict with the store untouched,
regardless of the caller's role (sql_agent.py:326-327). -/
theorem C3_update_delete_require_where (σ : Type)
    (runSelect : σ → String → Except SqlError (List Row))
    (runMutate : σ → String → Except SqlError (σ × Nat))
    (store : σ) (user_role : String)
    (llm_u llm_d : Except String String) (raw_u raw_d : String) :
    (¬ pyStartsWith (generate_update_sql llm_u) "REJECTED_SQL" →
        pyIn "WHERE" (pyUpper (generate_update_sql llm_u))) ∧
    (¬ pyStartsWith (generate_delete_sql llm_d) "REJECTED_SQL" →
        pyIn "WHERE" (pyUpper (generate_delete_sql llm_d))) ∧
    (pyStartsWith (pyUpper (clean_sql raw_u)) "UPDATE" →
     ¬ pyIn "WHERE" (pyUpper (clean_sql raw_u)) →
        generate_update_sql (Except.ok raw_u)
          = "REJECTED_SQL: UPDATE must have WHERE clause for safety -> " ++ clean_sql raw_u ∧
        execute_sql runSelect runMutate store (generate_update_sql (Except.ok raw_u)) user_role
          = (SQLResult.errorResult
              (pyReplace
                ("REJECTED_SQL: UPDATE must have WHERE clause for safety -> " ++ clean_sql raw_u)
                "REJECTED_SQL: " "") none none, store)) ∧
    (pyStartsWith (pyUpper (clean_sql raw_d)) "DELETE" →
     ¬ pyIn "WHERE" (pyUpper (clean_sql raw_d)) →
        generate_delete_sql (Except.ok raw_d)
          = "REJECTED_SQL: DELETE must have WHERE clause for safety -> " ++ clean_sql raw_d ∧
        execute_sql runSelect runMutate store (generate_delete_sql (Except.ok raw_d)) user_role
          = (SQLResult.errorResult
              (pyReplace
                ("REJECTED_SQL: DELETE must have WHERE clause for safety -> " ++ clean_sql raw_d)
                "REJECTED_SQL: " "") none none, store)) := by
  refine ⟨?_, ?_, fun hkw hnw => ?_, fun hkw hnw => ?_⟩
  · cases llm_u with
    | error e =>
      intro hne
      exact absurd (pyStartsWith_append e (by decide)) hne
    | ok raw =>
      simp only [generate_update_sql]
      by_cases h1 : pyStartsWith (pyUpper (clean_sql raw)) "UPDATE"
      · rw [if_neg (not_not_intro h1)]
        by_cases h2 : pyIn "WHERE" (pyUpper (clean_sql raw))
        · rw [if_neg (not_not_intro h2)]
          exact fun _ => h2
        · rw [if_pos h2]
          exact fun hne => absurd (pyStartsWith_append _ (by decide)) hne
      · rw [if_pos h1]
        exact fun hne => absurd (pyStartsWith_append _ (by decide)) hne
  · cases llm_d with
    | error e =>
      intro hne
      exact absurd (pyStartsWith_append e (by decide)) hne
    | ok raw =>
      simp only [generate_delete_sql]
      by_cases h1 : pyStartsWith (pyUpper (clean_sql raw)) "DELETE"
      · rw [if_neg (not_not_intro h1)]
        by_cases h2 : pyIn "WHERE" (pyUpper (clean_sql raw))
        · rw [if_neg (not_not_intro h2)]
          exact fun _ => h2
        · rw [if_pos h2]
          exact fun hne => absurd (pyStartsWith_append _ (by decide)) hne
      · rw [if_pos h1]
        exact fun hne => absurd (pyStartsWith_append _ (by decide)) hne
  · have hgen : generate_update_sql (Except.ok raw_u)
        = "REJECTED_SQL: UPDATE must have WHERE clause for safety -> " ++ clean_sql raw_u := by
      simp only [generate_update_sql]
      rw [if_neg (not_not_intro hkw), if_pos hnw]
    refine ⟨hgen, ?_⟩
    rw [hgen]
    simp only [execute_sql]
    rw [if_pos (pyStartsWith_append (clean_sql raw_u) (by decide))]
  · have hgen : generate_delete_sql (Except.ok raw_d)
        = "REJECTED_SQL: DELETE must have WHERE clause for safety -> " ++ clean_sql raw_d := by
      simp only [generate_delete_sql]
      rw [if_neg (not_not_intro hkw), if_pos hnw]
    refine ⟨hgen, ?_⟩
    rw [hgen]
    simp only [execute_sql]
    rw [if_pos (pyStartsWith_append (clean_sql raw_d) (by decide))]

set_option maxRecDepth 8192 in
/-- Witness for C3: an accepted UPDATE/DELETE pair with WHERE, and a
WHERE-less UPDATE/DELETE pair that is rejected and not executed (even for an
HR caller). -/
theorem C3_witness :
    (¬ pyStartsWith
        (generate_update_sql
          (Except.ok "UPDATE employees SET MonthlyIncome = 1 WHERE EmployeeNumber = 'E001'"))
        "REJECTED_SQL") ∧
    pyIn "WHERE"
      (pyUpper (generate_update_sql
        (Except.ok "UPDATE employees SET MonthlyIncome = 1 WHERE EmployeeNumber = 'E001'"))) ∧
    (¬ pyStartsWith
        (generate_delete_sql (Except.ok "DELETE FROM employees WHERE EmployeeNumber = 'E001'"))
        "REJECTED_SQL") ∧
    pyIn "WHERE"
      (pyUpper (generate_delete_sql
        (Except.ok "DELETE FROM employees WHERE EmployeeNumber = 'E001'"))) ∧
    pyStartsWith (pyUpper (clean_sql "UPDATE employees SET MonthlyIncome = 1")) "UPDATE" ∧
    (¬ pyIn "WHERE" (pyUpper (clean_sql "UPDATE employees SET MonthlyIncome = 1"))) ∧
    generate_update_sql (Except.ok "UPDATE employees SET MonthlyIncome = 1")
      = "REJECTED_SQL: UPDATE must have WHERE clause for safety -> "
          ++ clean_sql "UPDATE employees SET MonthlyIncome = 1" ∧
    execute_sql (fun (_ : Nat) _ => Except.ok []) (fun s _ => Except.ok (s + 1, 1)) 0
        (generate_update_sql (Except.ok "UPDATE employees SET MonthlyIncome = 1")) "hr"
      = (SQLResult.errorResult
          (pyReplace
            ("REJECTED_SQL: UPDATE must have WHERE clause for safety -> "
              ++ clean_sql "UPDATE employees SET MonthlyIncome = 1")
            "REJECTED_SQL: " "") none none, 0) ∧
    pyStartsWith (pyUpper (clean_sql "DELETE FROM employees")) "DELETE" ∧
    (¬ pyIn "WHERE" (pyUpper (clean_sql "DELETE FROM employees"))) ∧
    generate_delete_sql (Except.ok "DELETE FROM employees")
      = "REJECTED_SQL: DELETE must have WHERE clause for safety -> "
          ++ clean_sql "DELETE FROM employees" := by
  have h := C3_update_delete_require_where Nat (fun _ _ => Except.ok [])
    (fun s _ => Except.ok (s + 1, 1)) 0 "hr"
    (Except.ok "UPDATE employees SET MonthlyIncome = 1 WHERE EmployeeNumber = 'E001'")
    (Except.ok "DELETE FROM employees WHERE EmployeeNumber = 'E001'")
    "UPDATE employees SET MonthlyIncome = 1" "DELETE FROM employees"
  exact ⟨by decide, h.1 (by decide), by decide, h.2.1 (by decide), by decide, by decide,
    (h.2.2.1 (by decide) (by decide)).1, (h.2.2.1 (by decide) (by decide)).2,
    by decide, by decide, (h.2.2.2 (by decide) (by decide)).1⟩

/-- C9: on the fusion path the statement is generated with the default
non-privileged role (`generate_sql(question, self.current_user_id)`,
main_agent.py:81-83), so the result is either a REJECTED sentinel or a
statement whose uppercase form starts with SELECT, and executing it —
whatever role the executor passes — leaves the store state unchanged. -/
theorem C9_fusion_path_never_mutates (σ : Type)
    (runSelect : σ → String → Except SqlError (List Row))
    (runMutate : σ → String → Except SqlError (σ × Nat))
    (store : σ) (exec_role id_col question : String)
    (llmResult : Except String String) (current_user_id : Option String) :
    (pyStartsWith (fusion_generate_sql id_col question llmResult current_user_id)
        "REJECTED_SQL"
      ∨ pyStartsWith (pyUpper (fusion_generate_sql id_col question llmResult current_user_id))
        "SELECT") ∧
    (execute_sql runSelect runMutate store
        (fusion_generate_sql id_col question llmResult current_user_id) exec_role).2
      = store := by
  have hcl : classify_sql_intent question "employee" = "SELECT" := by
    simp only [classify_sql_intent]
    rw [if_pos (by decide : ("employee" : String) ≠ "hr")]
  have hgen : fusion_generate_sql id_col question llmResult current_user_id
      = generate_select_sql id_col llmResult current_user_id := by
    simp only [fusion_generate_sql, generate_sql, hcl]
    rw [if_neg (by decide : ¬ ("SELECT" : String) = "UPDATE"),
      if_neg (by decide : ¬ ("SELECT" : String) = "INSERT"),
      if_neg (by decide : ¬ ("SELECT" : String) = "DELETE")]
  have hdisj : pyStartsWith (fusion_generate_sql id_col question llmResult current_user_id)
        "REJECTED_SQL"
      ∨ pyStartsWith (pyUpper (fusion_generate_sql id_col question llmResult current_user_id))
        "SELECT" := by
    rw [hgen]
    cases llmResult with
    | error e =>
      exact Or.inl (pyStartsWith_append e (by decide))
    | ok raw =>
      simp only [generate_select_sql]
      by_cases h1 : pyStartsWith (pyUpper (clean_sql raw)) "SELECT"
      · rw [if_neg (not_not_intro h1)]
        cases current_user_id with
        | none => exact Or.inr h1
        | some uid =>
          refine Or.inr ?_
          obtain ⟨t, ht⟩ := ensure_user_filter_append id_col (clean_sql raw) uid
          show pyStartsWith (pyUpper (ensure_user_filter id_col (clean_sql raw) uid)) "SELECT"
          rw [ht, pyUpper_append]
          exact pyStartsWith_append (pyUpper t) h1
      · rw [if_pos h1]
        exact Or.inl (pyStartsWith_append _ (by decide))
  exact ⟨hdisj, execute_snd_eq_of_read σ runSelect runMutate store _ exec_role hdisj⟩

/-- C10: `_ensure_user_filter` is idempotent — applying it twice returns the
same string as applying it once, for every SQL string, caller identifier and
identity column (sql_agent.py:310-321): one application always leaves the
lowercase `where` token, the identity column and the identifier present, so
the second application takes the unchanged branch. -/
theorem C10_ensure_user_filter_idempotent (id_col sql user_id : String) :
    ensure_user_filter id_col (ensure_user_filter id_col sql user_id) user_id
      = ensure_user_filter id_col sql user_id := by
  by_cases h1 : pyIn "where" (pyLower sql)
  · by_cases h2 : ¬ pyIn (pyLower id_col) (pyLower sql) ∨ ¬ pyIn user_id sql
    · have hinner : ensure_user_filter id_col sql user_id
          = sql ++ (" AND " ++ id_col ++ " = '" ++ user_id ++ "'") := by
        simp only [ensure_user_filter]
        rw [if_neg (not_not_intro h1), if_pos h2]
        exact append_regroup6 ..
      have f1 : pyIn "where"
          (pyLower (sql ++ (" AND " ++ id_col ++ " = '" ++ user_id ++ "'"))) := by
        rw [pyLower_append]
        exact pyIn_append_left _ h1
      have f2 : pyIn (pyLower id_col)
          (pyLower (sql ++ (" AND " ++ id_col ++ " = '" ++ user_id ++ "'"))) := by
        rw [pyLower_append]
        exact pyIn_append_right _ (andTail_facts id_col user_id).1
      have f3 : pyIn user_id (sql ++ (" AND " ++ id_col ++ " = '" ++ user_id ++ "'")) :=
        pyIn_append_right _ (andTail_facts id_col user_id).2
      rw [hinner]
      simp only [ensure_user_filter]
      rw [if_neg (not_not_intro f1), if_neg (fun hcon => hcon.elim (· f2) (· f3))]
    · have hinner : ensure_user_filter id_col sql user_id = sql := by
        simp only [ensure_user_filter]
        rw [if_neg (not_not_intro h1), if_neg h2]
      rw [hinner]
      simp only [ensure_user_filter]
      rw [if_neg (not_not_intro h1), if_neg h2]
  · have hinner : ensure_user_filter id_col sql user_id
        = sql ++ (" WHERE " ++ id_col ++ " = '" ++ user_id ++ "'") := by
      simp only [ensure_user_filter]
      rw [if_pos h1]
      exact append_regroup6 ..
    have f1 : pyIn "where"
        (pyLower (sql ++ (" WHERE " ++ id_col ++ " = '" ++ user_id ++ "'"))) := by
      rw [pyLower_append]
      exact pyIn_append_right _ (whereTail_facts id_col user_id).1
    have f2 : pyIn (pyLower id_col)
        (pyLower (sql ++ (" WHERE " ++ id_col ++ " = '" ++ user_id ++ "'"))) := by
      rw [pyLower_append]
      exact pyIn_append_right _ (whereTail_facts id_col user_id).2.1
    have f3 : pyIn user_id (sql ++ (" WHERE " ++ id_col ++ " = '" ++ user_id ++ "'")) :=
      pyIn_append_right _ (whereTail_facts id_col user_id).2.2
    rw [hinner]
    simp only [ensure_user_filter]
    rw [if_neg (not_not_intro f1), if_neg (fun hcon => hcon.elim (· f2) (· f3))]

set_option maxRecDepth 8192 in
/-- C2 counterexample: for caller `E001`, a synthesized SELECT whose only
row-selection condition references the different identifier `E0011` is
returned unchanged by the generator — the misapplied constraint is not
rewritten, and the final statement does not contain the condition
`EmployeeNumber = 'E001'` — because `_ensure_user_filter`'s check is mere
substring containment of the column name and of the identifier
(sql_agent.py:318). -/
theorem C2_counterexample :
    generate_select_sql "EmployeeNumber"
        (Except.ok "SELECT MonthlyIncome FROM employees WHERE EmployeeNumber = 'E0011'")
        (some "E001")
      = "SELECT MonthlyIncome FROM employees WHERE EmployeeNumber = 'E0011'" ∧
    ¬ pyIn "EmployeeNumber = 'E001'"
        "SELECT MonthlyIncome FROM employees WHERE EmployeeNumber = 'E0011'" := by
  exact ⟨by decide, by decide⟩

/-- C2 (amended): `_ensure_user_filter` only ever appends — with `WHERE` when
the statement has no lowercase `where` token, with `AND` when it has one but
lacks the identity column (case-insensitively) or the caller identifier as a
substring — and never replaces an existing clause; the result always contains
the identifier and the identity column as substrings.  A statement that
already contains both substrings is trusted unchanged, even when its actual
condition references a different identifier, so the exact condition
`identity-column = 'X'` is not guaranteed. -/
theorem C2_user_filter_conjunctive_append (id_col user_id sql sqlA sqlB : String)
    (hA : ¬ pyIn "where" (pyLower sqlA))
    (hBw : pyIn "where" (pyLower sqlB)) (hBu : ¬ pyIn user_id sqlB) :
    (∃ t, ensure_user_filter id_col sql user_id = sql ++ t ∧
       (t = "" ∨ t = " WHERE " ++ id_col ++ " = '" ++ user_id ++ "'"
          ∨ t = " AND " ++ id_col ++ " = '" ++ user_id ++ "'")) ∧
    pyIn user_id (ensure_user_filter id_col sql user_id) ∧
    pyIn (pyLower id_col) (pyLower (ensure_user_filter id_col sql user_id)) ∧
    ensure_user_filter id_col sqlA user_id
      = sqlA ++ (" WHERE " ++ id_col ++ " = '" ++ user_id ++ "'") ∧
    ensure_user_filter id_col sqlB user_id
      = sqlB ++ (" AND " ++ id_col ++ " = '" ++ user_id ++ "'") := by
  refine ⟨?_, (ensure_user_filter_contains id_col sql user_id).1,
    (ensure_user_filter_contains id_col sql user_id).2, ?_, ?_⟩
  · simp only [ensure_user_filter]
    by_cases h1 : pyIn "where" (pyLower sql)
    · by_cases h2 : ¬ pyIn (pyLower id_col) (pyLower sql) ∨ ¬ pyIn user_id sql
      · rw [if_neg (not_not_intro h1), if_pos h2]
        exact ⟨_, append_regroup6 .., Or.inr (Or.inr rfl)⟩
      · rw [if_neg (not_not_intro h1), if_neg h2]
        exact ⟨"", by simp, Or.inl rfl⟩
    · rw [if_pos h1]
      exact ⟨_, append_regroup6 .., Or.inr (Or.inl rfl)⟩
  · simp only [ensure_user_filter]
    rw [if_pos hA]
    exact append_regroup6 ..
  · simp only [ensure_user_filter]
    rw [if_neg (not_not_intro hBw), if_pos (Or.inr hBu)]
    exact append_regroup6 ..

/-- Witness for C2 (amended): a WHERE-less SELECT gets the `WHERE` filter, a
SELECT with an unrelated WHERE clause gets the `AND` filter. -/
theorem C2_witness :
    (¬ pyIn "where" (pyLower "SELECT MonthlyIncome FROM employees")) ∧
    pyIn "where" (pyLower "SELECT Name FROM employees WHERE Department = 'Sales'") ∧
    (¬ pyIn "E001" "SELECT Name FROM employees WHERE Department = 'Sales'") ∧
    ensure_user_filter "EmployeeNumber" "SELECT MonthlyIncome FROM employees" "E001"
      = "SELECT MonthlyIncome FROM employees" ++ (" WHERE " ++ "EmployeeNumber" ++ " = '" ++ "E001" ++ "'") ∧
    ensure_user_filter "EmployeeNumber"
        "SELECT Name FROM employees WHERE Department = 'Sales'" "E001"
      = "SELECT Name FROM employees WHERE Department = 'Sales'"
          ++ (" AND " ++ "EmployeeNumber" ++ " = '" ++ "E001" ++ "'") ∧
    pyIn "E001"
      (ensure_user_filter "EmployeeNumber" "SELECT Name FROM employees" "E001") := by
  have h := C2_user_filter_conjunctive_append "EmployeeNumber" "E001"
    "SELECT Name FROM employees" "SELECT MonthlyIncome FROM employees"
    "SELECT Name FROM employees WHERE Department = 'Sales'"
    (by decide) (by decide) (by decide)
  exact ⟨by decide, by decide, by decide, h.2.2.2.1, h.2.2.2.2, h.2.1⟩

/-- C7: `execute_fusion_query` adds `"📋 Company Policy Documents"` to the
source attribution only when `policy_result.get("source_documents")` is
truthy (main_agent.py:111), but `PolicyAgent.query` never returns a
`source_documents` key (policy_agent.py:278-332) — so the knowledge base is
never attributed, even when the retrieval branch succeeds and the data branch
fails (spec Scenario E expects sources = {KNOWLEDGE_BASE} there, the code
yields the empty attribution). -/
theorem C7_kb_attribution_never_listed :
    fusion_sources
        (SQLResult.errorResult "Database error: unable to open database file"
          (some "SELECT LeaveBalance FROM employees WHERE EmployeeNumber = 'E001'") none)
        (PolicyQueryResult.ok "• Annual leave is 20 days per year.")
      = [] ∧
    ∀ (sql_result : SQLResult) (policy_result : PolicyQueryResult),
      fusion_sources sql_result policy_result
        = if sql_result.hasSuccessKey then ["📊 Employee Database"] else [] := by
  constructor
  · rfl
  · intro sqlr pr
    simp only [fusion_sources]
    have hk : pr.hasKey "source_documents" = false := by cases pr <;> rfl
    rw [hk]
    simp

end HRMS
